import Mathlib

/-!
Verification of the device-preparation state machine of the
nrf-device-setup library (src/setupDevice.js, src/dfuTrigger.js,
src/jprogFunc.js).

The JavaScript code is shallowly embedded: the pure classification
helpers become Lean functions; the promise chains of `setupDevice`,
`performDFU` and the JLink flow become functions from an explicit
environment (holding the outcomes of the external collaborators:
USB control transfers, the device lister, the DFU protocol driver,
the nrfjprog probe) to a result together with a trace of the external
actions the flow performed, in order.
-/

namespace NrfDeviceSetup

/-- USB device descriptor: the idVendor/idProduct pair used to recognise
the DFU bootloader (`isDeviceInDFUBootloader`, setupDevice.js). -/
structure DeviceDescriptor where
  idVendor : Nat
  idProduct : Nat
deriving DecidableEq, Repr

/-- One USB interface descriptor, as scanned by `getDFUInterfaceNumber`
(dfuTrigger.js): class 255 / subclass 1 / protocol 1 marks the DFU
trigger interface. -/
structure UsbIface where
  bInterfaceClass : Nat
  bInterfaceSubClass : Nat
  bInterfaceProtocol : Nat
deriving DecidableEq, Repr

/-- The node-usb device handle. `interfaces` is only populated while the
handle is open (`usbdev.interfaces instanceof Array`); `isOpen` models
that state and `openFails` models `usbdev.open()` throwing. -/
structure UsbDevice where
  deviceDescriptor : DeviceDescriptor
  interfacesIfOpen : List UsbIface
  isOpen : Bool
  openFails : Bool
deriving DecidableEq, Repr

/-- The serialport entry of an nrf-device-lister device. -/
structure Serialport where
  vendorId : String
  productId : String
  comName : String
deriving DecidableEq, Repr

/-- An nrf-device-lister device snapshot. -/
structure Device where
  serialNumber : String
  usb : Option UsbDevice
  serialport : Option Serialport
  traits : List String
deriving DecidableEq, Repr

/-- The `isDeviceInDFUBootloader` (setupDevice.js lines 93-106): a null
device is not in the bootloader; a usb-backed device is iff its
descriptor is 0x1915/0x521f; otherwise a serialport-backed device is
iff the port reports vendor "1915" and product "521F" (case folded). -/
def isDeviceInDFUBootloader (device : Option Device) : Bool :=
  match device with
  | none => false
  | some d =>
    match d.usb with
    | some usbdevice =>
      usbdevice.deviceDescriptor.idVendor == 0x1915 &&
        usbdevice.deviceDescriptor.idProduct == 0x521f
    | none =>
      match d.serialport with
      | some sp => sp.vendorId == "1915" && sp.productId.toUpper == "521F"
      | none => false

/-- The DFU trigger interface signature (dfuTrigger.js): class 255,
subclass 1, protocol 1. -/
def isDfuTriggerIface (iface : UsbIface) : Bool :=
  iface.bInterfaceClass == 255 &&
    iface.bInterfaceSubClass == 1 &&
    iface.bInterfaceProtocol == 1

/-- The `getDFUInterfaceNumber` (dfuTrigger.js lines 104-130): opens the
device if it was closed (returning -1 when the open throws), then
`findIndex` over the interface descriptors, which yields -1 when no
interface matches the trigger signature. -/
def getDFUInterfaceNumber (usbdev : UsbDevice) : Int :=
  if !usbdev.isOpen && usbdev.openFails then -1
  else
    match usbdev.interfacesIfOpen.findIdx? isDfuTriggerIface with
    | some i => Int.ofNat i
    | none => -1

/-! ### Detach control transfer (dfuTrigger.js, `sendDetachRequest`) -/

/-- libusb constant: transfer status LIBUSB_TRANSFER_STALL. -/
def LIBUSB_TRANSFER_STALL : Int := 4

/-- libusb constant: error code LIBUSB_ERROR_IO. -/
def LIBUSB_ERROR_IO : Int := -1

/-- The error object delivered to the control-transfer callback. -/
structure UsbTransferError where
  errno : Int
  message : String
deriving DecidableEq, Repr

/-- How the `sendDetachRequest` promise settles. -/
inductive DetachOutcome where
  /-- The promise resolves: the detach is regarded as successful. -/
  | resolved
  /-- The promise rejects with the interface-release error. -/
  | rejectedReleaseError (message : String)
  /-- The promise rejects with the hard failure
  "USB DFU detach request sent, but device does not seem to have rebooted". -/
  | rejectedDetachFailed
deriving DecidableEq, Repr

/-- The `sendDetachRequest` settlement (dfuTrigger.js lines 169-207), as a
function of the host platform, the control-transfer callback error and
the interface-release callback error.  A release error rejects first
(the later resolve of an already-settled promise is ignored).  Then:
a transfer error with errno/message LIBUSB_TRANSFER_STALL resolves, a
transfer error with errno/message LIBUSB_ERROR_IO resolves, on darwin
any remaining outcome resolves, and otherwise the promise rejects with
the hard detach failure. -/
def sendDetachRequestOutcome (platform : String) (err : Option UsbTransferError)
    (releaseErr : Option String) : DetachOutcome :=
  match releaseErr with
  | some e2 => .rejectedReleaseError e2
  | none =>
    match err with
    | some e =>
      if e.errno == LIBUSB_TRANSFER_STALL && e.message == "LIBUSB_TRANSFER_STALL" then
        .resolved
      else if e.errno == LIBUSB_ERROR_IO && e.message == "LIBUSB_ERROR_IO" then
        .resolved
      else if platform == "darwin" then .resolved
      else .rejectedDetachFailed
    | none =>
      if platform == "darwin" then .resolved
      else .rejectedDetachFailed

/-! ### Firmware image parsing (setupDevice.js, `parseFirmwareImage`)

Hex parsing itself (nrf-intel-hex) is an external collaborator; its
output, a memory map, is modelled as the list of (address, data) blocks
in iteration order. -/

/-- One block of an nrf-intel-hex MemoryMap: start address and bytes. -/
abbrev MemBlock := Nat × List Nat

/-- The byte a MemoryMap yields at an absolute address: the byte of the
block covering the address, 0xff (the slicePad padding byte) elsewhere. -/
def memMapByte (blocks : List MemBlock) (addr : Nat) : Nat :=
  match blocks.find? (fun b => b.1 ≤ addr && addr < b.1 + b.2.length) with
  | some b => b.2.getD (addr - b.1) 0xff
  | none => 0xff

/-- The `MemoryMap.slicePad(start, length)`: the `length` bytes starting at
`start`, padded with 0xff where no block provides data. -/
def slicePad (blocks : List MemBlock) (start len : Nat) : List Nat :=
  (List.range len).map (fun i => memMapByte blocks (start + i))

/-- One step of the `memMap.forEach` fold on `startAddress`:
`startAddress = !startAddress ? address : startAddress`.
Note `!startAddress` is also true when the accumulated address is 0
(falsy in JavaScript), so a block at address 0 does not pin the start. -/
def startStep (acc : Option Nat) (b : MemBlock) : Option Nat :=
  match acc with
  | none => some b.1
  | some s => if s = 0 then some b.1 else some s

/-- The `startAddress` computed by the fold of `parseFirmwareImage`. -/
def computeStartAddress (blocks : List MemBlock) : Option Nat :=
  blocks.foldl startStep none

/-- One step of the fold on `endAddress`: always overwritten with
`address + block.length`. -/
def endStep (_ : Option Nat) (b : MemBlock) : Option Nat :=
  some (b.1 + b.2.length)

/-- The `endAddress` computed by the fold: the last block's
`address + block.length`. -/
def computeEndAddress (blocks : List MemBlock) : Option Nat :=
  blocks.foldl endStep none

/-- The `parseFirmwareImage` (setupDevice.js lines 189-199):
`memMap.slicePad(startAddress, Math.ceil((endAddress - startAddress) / 4) * 4)`.
The model covers the domain the code is used on: a non-empty map whose
end address is not below the computed start address (on an empty map
the JavaScript arithmetic produces NaN; modelled as the empty image). -/
def parseFirmwareImage (blocks : List MemBlock) : List Nat :=
  match computeStartAddress blocks, computeEndAddress blocks with
  | some startAddress, some endAddress =>
    slicePad blocks startAddress ((endAddress - startAddress + 3) / 4 * 4)
  | _, _ => []

/-- The start address as the spec sentence describes the code after
amendment: the address of the first block whose address is non-zero;
if every block sits at address 0, that address; none on an empty map.
Stated from the amended claim wording, to be compared with
`computeStartAddress`. -/
def specStartAddress (blocks : List MemBlock) : Option Nat :=
  match blocks.find? (fun b => b.1 != 0) with
  | some b => some b.1
  | none => blocks.head?.map Prod.fst

/-! ### Init packets (setupDevice.js, `prepareInDFUBootloader`) -/

/-- Firmware type constants of the init-packet module. -/
inductive FwType where
  | SOFTDEVICE
  | APPLICATION
deriving DecidableEq, Repr

/-- Hash type constants of the init-packet module. -/
inductive HashType where
  | SHA256
deriving DecidableEq, Repr

/-- The InitPacket parameter record assembled by the `.set` chains of
`prepareInDFUBootloader` before it is serialised by the (external)
`createInitPacketUint8Array`.  Unset fields stay `none`. -/
structure InitPacket where
  fwType : Option FwType := none
  fwVersion : Option Nat := none
  hwVersion : Option Nat := none
  hashType : Option HashType := none
  hash : List Nat := []
  sdSize : Option Nat := none
  appSize : Option Nat := none
  sdReq : Option (List Nat) := none
deriving DecidableEq, Repr

/-- The `params` object of a DFU firmware definition. -/
structure DfuParams where
  hwVersion : Option Nat := none
  fwVersion : Option Nat := none
  sdReq : Option (List Nat) := none
  sdId : Option (List Nat) := none
deriving DecidableEq, Repr

/-- One entry of the `dfu` option map.  Firmware sources are modelled as
the already-parsed hex block lists (reading a file and `fromHex` are
done by external collaborators). -/
structure DfuEntry where
  application : List MemBlock
  softdevice : Option (List MemBlock) := none
  semver : String
  params : Option DfuParams := none
deriving DecidableEq, Repr

/-- JavaScript `x || d` on an optional number: undefined and 0 are
falsy, so both fall back to the default. -/
def orFalsyNat (v : Option Nat) (d : Nat) : Nat :=
  match v with
  | some n => if n = 0 then d else n
  | none => d

/-- The `calculateSHA256Hash` (setupDevice.js lines 176-180): the SHA-256
digest of the image (the digest function itself is the external crypto
collaborator) with its byte order reversed. -/
def calculateSHA256Hash (sha256 : List Nat → List Nat) (image : List Nat) : List Nat :=
  (sha256 image).reverse

/-- The softdevice init packet of `prepareInDFUBootloader`. -/
def softdevicePacket (sha256 : List Nat → List Nat) (params : DfuParams)
    (firmwareImage : List Nat) : InitPacket :=
  { fwType := some FwType.SOFTDEVICE
    fwVersion := some 0xffffffff
    hwVersion := some (orFalsyNat params.hwVersion 52)
    hashType := some HashType.SHA256
    hash := calculateSHA256Hash sha256 firmwareImage
    sdSize := some firmwareImage.length
    sdReq := some (params.sdReq.getD []) }

/-- The application init packet of `prepareInDFUBootloader`. -/
def applicationPacket (sha256 : List Nat → List Nat) (params : DfuParams)
    (firmwareImage : List Nat) : InitPacket :=
  { fwType := some FwType.APPLICATION
    fwVersion := some (orFalsyNat params.fwVersion 4)
    hwVersion := some (orFalsyNat params.hwVersion 52)
    hashType := some HashType.SHA256
    hash := calculateSHA256Hash sha256 firmwareImage
    appSize := some firmwareImage.length
    sdReq := some (params.sdId.getD []) }

/-- The `firmwareUpdates` list that `prepareInDFUBootloader`
(setupDevice.js lines 243-290) hands to `DfuOperation`: the softdevice
pair first when a softdevice is defined, then the application pair. -/
def prepareInDFUBootloaderUpdates (dfu : DfuEntry) (sha256 : List Nat → List Nat) :
    List (InitPacket × List Nat) :=
  let params := dfu.params.getD {}
  (match dfu.softdevice with
   | some sd =>
     [(softdevicePacket sha256 params (parseFirmwareImage sd), parseFirmwareImage sd)]
   | none => []) ++
  [(applicationPacket sha256 params (parseFirmwareImage dfu.application),
    parseFirmwareImage dfu.application)]

/-! ### Re-enumeration waiter (setupDevice.js, `waitForDevice`) -/

/-- Default wait time for the port to show up (setupDevice.js). -/
def DEFAULT_DEVICE_WAIT_TIME : Nat := 10000

/-- One conflated enumeration event pushed by nrf-device-lister: the
moment it fires and the device-by-serial-number map it carries. -/
structure ConflationEvent where
  time : Nat
  deviceMap : List (String × Device)
deriving DecidableEq, Repr

/-- The `deviceMap.get(serialNumber)`. -/
def mapGet (m : List (String × Device)) (key : String) : Option Device :=
  (m.find? (fun p => p.1 == key)).map Prod.snd

/-- The check of `checkConflation`: the map holds the serial number and
the device has every expected trait; yields the device on a match. -/
def conflationMatch (serialNumber : String) (expectedTraits : List String)
    (deviceMap : List (String × Device)) : Option Device :=
  match mapGet deviceMap serialNumber with
  | some device =>
    if expectedTraits.all (fun trait => device.traits.contains trait) then some device
    else none
  | none => none

/-- How the `waitForDevice` promise settles: resolved with a device at
the time of the matching event, or rejected by the timeout timer at the
time it fires. -/
inductive WaitResult where
  | found (time : Nat) (device : Device)
  | timedOut (time : Nat)
deriving DecidableEq, Repr

/-- The `waitForDevice` (setupDevice.js lines 121-154) over the stream of
conflation events, given in chronological order: the first event
strictly before the timeout whose map matches resolves the promise;
otherwise the timer fires at `timeout` and rejects (the listener and
timer are both torn down, so the promise always settles). -/
def waitForDevice (serialNumber : String) (timeout : Nat) (expectedTraits : List String)
    (events : List ConflationEvent) : WaitResult :=
  match events.find?
      (fun ev => decide (ev.time < timeout) &&
        (conflationMatch serialNumber expectedTraits ev.deviceMap).isSome) with
  | some ev =>
    match conflationMatch serialNumber expectedTraits ev.deviceMap with
    | some device => .found ev.time device
    | none => .timedOut timeout
  | none => .timedOut timeout

/-! ### The setup flow (setupDevice.js, `setupDevice` / `performDFU`)

The promise chains are embedded as functions of an environment holding
the settlement of every external call, returning the settlement of the
overall promise together with the chronological trace of external
actions performed. -/

/-- One entry of the `jprog` option map.  The firmware-identity check
(`fwVersion` exact string or validator) is consumed by
`validateFirmware`, whose probe reads are external; the flow only needs
the entry itself. -/
structure JprogEntry where
  fw : String
  fwIdAddress : Nat := 0
deriving DecidableEq, Repr

/-- The options object of `setupDevice`.  The interaction hooks are
modelled by their settlement: absent, or present and resolving/rejecting
with the given value each time they are invoked. -/
structure Options where
  dfu : Option (List (String × DfuEntry)) := none
  jprog : Option (List (String × JprogEntry)) := none
  needSerialport : Bool := false
  detailedOutput : Bool := false
  promiseConfirm : Option (Except String Bool) := none
  promiseConfirmBootloader : Option (Except String Bool) := none
  promiseChoice : Option (Except String String) := none

/-- Settlements of the external collaborators consumed by the flow. -/
structure Env where
  /-- The `getSemVersion(usbdev, interfaceNumber)` on the trigger interface. -/
  getSemVersion : Int → Except String String
  /-- The `ensureBootloaderMode(device)`: detach / re-enumeration round. -/
  ensureBootloader : Device → Except String Device
  /-- The `getBootloaderVersion(device)` over the DFU transport. -/
  getBootloaderVersion : Device → Except String Nat
  /-- The `updateBootloader(device)`: bootloader DFU and re-enumeration. -/
  updateBootloader : Device → Except String Device
  /-- The `prepareInDFUBootloader(device, dfu[choice])`: the image transfer
  and the final re-enumeration, keyed by the chosen firmware. -/
  dfuTransfer : Device → String → Except String Device
  /-- Whether the retry loop of `validateSerialPort` manages to open the
  port. -/
  serialPortOk : Device → Bool
  /-- The `verifySerialPortAvailable(device)`. -/
  verifySerial : Except String Unit
  /-- The `openJLink(device)`. -/
  openJLink : Except String Unit
  /-- The `getDeviceFamily(device)`. -/
  getDeviceFamily : Except String String
  /-- The `validateFirmware(device, firmwareFamily)`. -/
  validateFirmware : JprogEntry → Except String Bool
  /-- The `programFirmware(device, firmwareFamily)`. -/
  programFirmware : JprogEntry → Except String Unit
  /-- The `closeJLink(device)`. -/
  closeJLink : Except String Unit

/-- External actions a flow can perform, recorded in order. -/
inductive Action where
  | confirm
  | choice
  | getSemVersion
  | ensureBootloader
  | bootloaderVersionCheck
  | bootloaderUpdate
  | dfuTransfer (choice : String)
  | validateSerial
  | verifySerialPort
  | openJLink
  | getDeviceFamily
  | validateFirmware
  | programFirmware
  | closeJLink
deriving DecidableEq, Repr

/-- The `setupDevice` resolves with the device, or with `{ device, details }`
when `detailedOutput` is set (`createReturnValue`). -/
inductive ReturnValue where
  | plain (device : Device)
  | detailed (device : Device) (wasProgrammed : Bool)
deriving DecidableEq, Repr

/-- The `createReturnValue` (setupDevice.js lines 426-428). -/
def createReturnValue (device : Device) (wasProgrammed : Bool)
    (detailedOutput : Bool) : ReturnValue :=
  if detailedOutput then .detailed device wasProgrammed else .plain device

/-- The `confirmHelper` (setupDevice.js lines 298-305): no hook means
consent; a hook that rejects becomes the error
"Preparation cancelled by user"; otherwise its boolean is returned. -/
def confirmHelper (promiseConfirm : Option (Except String Bool)) : Except String Bool :=
  match promiseConfirm with
  | none => .ok true
  | some (.ok b) => .ok b
  | some (.error _) => .error "Preparation cancelled by user"

/-- The `choiceHelper` (setupDevice.js lines 314-319): with more than one
choice and a hook present, the hook decides; otherwise `choices.pop()`,
the LAST element (undefined on an empty array). -/
def choiceHelper (choices : List String) (promiseChoice : Option (Except String String)) :
    Except String (Option String) :=
  if choices.length > 1 && promiseChoice.isSome then
    match promiseChoice with
    | some (.ok c) => .ok (some c)
    | some (.error e) => .error e
    | none => .ok choices.getLast?
  else
    .ok choices.getLast?

/-- The `validateSerialPort` (setupDevice.js lines 207-231): nothing to do
when no serial port is needed; otherwise the retry loop either opens
`device.serialport.comName` (a missing serialport object makes the
JavaScript dereference throw) or the loop ends in the error
couldn`t open serialport. -/
def validateSerialPort (device : Device) (needSerialport : Bool) (env : Env) :
    Except String Device :=
  if needSerialport then
    match device.serialport with
    | none => .error "TypeError: device.serialport is undefined"
    | some _ =>
      if env.serialPortOk device then .ok device
      else .error "couldn\x60t open serialport"
  else .ok device

/-- Latest known bootloader version shipped with the module. -/
def LATEST_BOOTLOADER_VERSION : Nat := 3

/-- The `checkConfirmUpdateBootloader` (setupDevice.js lines 371-385):
without a hook the bootloader is never updated; otherwise the running
bootloader version is read, an up-to-date bootloader is kept, and an
outdated one is updated only when the hook resolves true (a hook
rejection propagates as is here, unlike in `confirmHelper`). -/
def checkConfirmUpdateBootloader (device : Device)
    (promiseConfirm : Option (Except String Bool)) (env : Env) :
    Except String Device × List Action :=
  match promiseConfirm with
  | none => (.ok device, [])
  | some hookResult =>
    match env.getBootloaderVersion device with
    | .error e => (.error e, [Action.bootloaderVersionCheck])
    | .ok bootloaderVersion =>
      if bootloaderVersion ≥ LATEST_BOOTLOADER_VERSION then
        (.ok device, [Action.bootloaderVersionCheck])
      else
        match hookResult with
        | .error e => (.error e, [Action.bootloaderVersionCheck])
        | .ok false => (.ok device, [Action.bootloaderVersionCheck])
        | .ok true =>
          match env.updateBootloader device with
          | .error e => (.error e, [Action.bootloaderVersionCheck, Action.bootloaderUpdate])
          | .ok updated => (.ok updated, [Action.bootloaderVersionCheck, Action.bootloaderUpdate])

/-- The `Object.keys(dfu)`. -/
def dfuKeys (dfu : Option (List (String × DfuEntry))) : List String :=
  (dfu.getD []).map Prod.fst

/-- The `performDFU` (setupDevice.js lines 438-466): confirmation gate,
firmware choice, bootloader-mode entry, optional bootloader update,
second bootloader-mode entry, image transfer, serial-port validation.
A declined confirmation returns the unprogrammed device immediately. -/
def performDFU (selectedDevice : Device) (options : Options) (env : Env) :
    Except String ReturnValue × List Action :=
  match confirmHelper options.promiseConfirm with
  | .error e => (.error e, [Action.confirm])
  | .ok false =>
    (.ok (createReturnValue selectedDevice false options.detailedOutput), [Action.confirm])
  | .ok true =>
    match choiceHelper (dfuKeys options.dfu) options.promiseChoice with
    | .error e => (.error e, [Action.confirm, Action.choice])
    | .ok none => (.error "TypeError: dfu firmware choice is undefined",
        [Action.confirm, Action.choice])
    | .ok (some choice) =>
      match env.ensureBootloader selectedDevice with
      | .error e => (.error e, [Action.confirm, Action.choice, Action.ensureBootloader])
      | .ok device1 =>
        match (checkConfirmUpdateBootloader device1
            (options.promiseConfirmBootloader <|> options.promiseConfirm) env).1 with
        | .error e =>
          (.error e, [Action.confirm, Action.choice, Action.ensureBootloader]
            ++ (checkConfirmUpdateBootloader device1
              (options.promiseConfirmBootloader <|> options.promiseConfirm) env).2)
        | .ok device2 =>
          match env.ensureBootloader device2 with
          | .error e =>
            (.error e, [Action.confirm, Action.choice, Action.ensureBootloader]
              ++ (checkConfirmUpdateBootloader device1
                (options.promiseConfirmBootloader <|> options.promiseConfirm) env).2
              ++ [Action.ensureBootloader])
          | .ok device3 =>
            match env.dfuTransfer device3 choice with
            | .error e =>
              (.error e, [Action.confirm, Action.choice, Action.ensureBootloader]
                ++ (checkConfirmUpdateBootloader device1
                  (options.promiseConfirmBootloader <|> options.promiseConfirm) env).2
                ++ [Action.ensureBootloader, Action.dfuTransfer choice])
            | .ok device4 =>
              match validateSerialPort device4 options.needSerialport env with
              | .error e =>
                (.error e, [Action.confirm, Action.choice, Action.ensureBootloader]
                  ++ (checkConfirmUpdateBootloader device1
                    (options.promiseConfirmBootloader <|> options.promiseConfirm) env).2
                  ++ [Action.ensureBootloader, Action.dfuTransfer choice,
                    Action.validateSerial])
              | .ok device5 =>
                (.ok (createReturnValue device5 true options.detailedOutput),
                  [Action.confirm, Action.choice, Action.ensureBootloader]
                    ++ (checkConfirmUpdateBootloader device1
                      (options.promiseConfirmBootloader <|> options.promiseConfirm) env).2
                    ++ [Action.ensureBootloader, Action.dfuTransfer choice,
                      Action.validateSerial])

/-- The `jprog[family]`. -/
def lookupJprog (jprogMap : List (String × JprogEntry)) (family : String) :
    Option JprogEntry :=
  (jprogMap.find? (fun p => p.1 == family)).map Prod.snd

/-- The JLink promise chain of `setupDevice` (lines 556-591) up to but
not including the closing handler: serial-port availability check (only
when required), probe open, family lookup, firmware validation, and the
confirmation-gated flash.  Resolves with the `wasProgrammed` flag. -/
def jlinkFlowPhase (options : Options) (jprogMap : List (String × JprogEntry))
    (env : Env) : Except String Bool × List Action :=
  let t0 : List Action := if options.needSerialport then [Action.verifySerialPort] else []
  match (if options.needSerialport then env.verifySerial else Except.ok ()) with
  | .error e => (.error e, t0)
  | .ok _ =>
    match env.openJLink with
    | .error e => (.error e, t0 ++ [Action.openJLink])
    | .ok _ =>
      match env.getDeviceFamily with
      | .error e => (.error e, t0 ++ [Action.openJLink, Action.getDeviceFamily])
      | .ok family =>
        match lookupJprog jprogMap family with
        | none =>
          (.error (s!"No firmware defined for {family} family"),
            t0 ++ [Action.openJLink, Action.getDeviceFamily])
        | some firmwareFamily =>
          match env.validateFirmware firmwareFamily with
          | .error e =>
            (.error e, t0 ++ [Action.openJLink, Action.getDeviceFamily, Action.validateFirmware])
          | .ok true =>
            (.ok false, t0 ++ [Action.openJLink, Action.getDeviceFamily, Action.validateFirmware])
          | .ok false =>
            match confirmHelper options.promiseConfirm with
            | .error e =>
              (.error e, t0 ++ [Action.openJLink, Action.getDeviceFamily,
                Action.validateFirmware, Action.confirm])
            | .ok false =>
              (.ok false, t0 ++ [Action.openJLink, Action.getDeviceFamily,
                Action.validateFirmware, Action.confirm])
            | .ok true =>
              match env.programFirmware firmwareFamily with
              | .error e =>
                (.error e, t0 ++ [Action.openJLink, Action.getDeviceFamily,
                  Action.validateFirmware, Action.confirm, Action.programFirmware])
              | .ok _ =>
                (.ok true, t0 ++ [Action.openJLink, Action.getDeviceFamily,
                  Action.validateFirmware, Action.confirm, Action.programFirmware])

/-- The full JLink branch: the phase above followed by the two-handler
`then` that closes the probe on success and on failure alike, and the
final mapping to `createReturnValue` with the original snapshot. -/
def jlinkFlow (selectedDevice : Device) (options : Options)
    (jprogMap : List (String × JprogEntry)) (env : Env) :
    Except String ReturnValue × List Action :=
  match jlinkFlowPhase options jprogMap env with
  | (.ok wasProgrammed, tr) =>
    match env.closeJLink with
    | .ok _ =>
      (.ok (createReturnValue selectedDevice wasProgrammed options.detailedOutput),
        tr ++ [Action.closeJLink])
    | .error e => (.error e, tr ++ [Action.closeJLink])
  | (.error e, tr) =>
    match env.closeJLink with
    | .ok _ => (.error e, tr ++ [Action.closeJLink])
    | .error e2 => (.error e2, tr ++ [Action.closeJLink])

/-- The tail of `setupDevice`: the JLink branch when a jprog spec is
present and the device has the jlink trait, otherwise the fallthrough
that resolves with the unmodified, unprogrammed device. -/
def setupJlinkOrDefault (selectedDevice : Device) (options : Options) (env : Env) :
    Except String ReturnValue × List Action :=
  match options.jprog with
  | some jprogMap =>
    if selectedDevice.traits.contains "jlink" then
      jlinkFlow selectedDevice options jprogMap env
    else
      (.ok (createReturnValue selectedDevice false options.detailedOutput), [])
  | none =>
    (.ok (createReturnValue selectedDevice false options.detailedOutput), [])

/-- The `dfu && Object.keys(dfu).length !== 0`. -/
def dfuDefined (dfu : Option (List (String × DfuEntry))) : Bool :=
  match dfu with
  | some entries => !entries.isEmpty
  | none => false

/-- The `setupDevice` (setupDevice.js lines 515-599).  With a non-empty dfu
spec: a device already in the DFU bootloader goes straight to
`performDFU`; a device with a DFU trigger interface has its semantic
version read, and either resolves unprogrammed (version known, serial
port requirement satisfied), rejects with Missing serial port, or runs
`performDFU`.  Otherwise the JLink branch or the fallthrough applies. -/
def setupDevice (selectedDevice : Device) (options : Options) (env : Env) :
    Except String ReturnValue × List Action :=
  if dfuDefined options.dfu then
    if isDeviceInDFUBootloader (some selectedDevice) then
      performDFU selectedDevice options env
    else
      match selectedDevice.usb with
      | some usbdev =>
        if getDFUInterfaceNumber usbdev ≥ 0 then
          match env.getSemVersion (getDFUInterfaceNumber usbdev) with
          | .error e => (.error e, [Action.getSemVersion])
          | .ok semver =>
            if ((options.dfu.getD []).map (fun p => p.2.semver)).contains semver then
              if options.needSerialport && selectedDevice.serialport.isNone then
                (.error "Missing serial port", [Action.getSemVersion])
              else
                (.ok (createReturnValue selectedDevice false options.detailedOutput),
                  [Action.getSemVersion])
            else
              match performDFU selectedDevice options env with
              | (r, tr) => (r, Action.getSemVersion :: tr)
        else setupJlinkOrDefault selectedDevice options env
      | none => setupJlinkOrDefault selectedDevice options env
  else setupJlinkOrDefault selectedDevice options env

/-! ## Theorems -/

/-- C5, counterexample: on darwin a detach control transfer that
completes normally (no transfer error, release succeeds) is treated as
a success signal, not as the hard DetachFailed rejection the claim
requires for every outcome other than the stall and I/O errors. -/
theorem C5_counterexample :
    sendDetachRequestOutcome "darwin" none none = DetachOutcome.resolved ∧
    DetachOutcome.resolved ≠ DetachOutcome.rejectedDetachFailed :=
  ⟨rfl, by decide⟩

/-- C5 (amended): on platforms other than darwin, with the interface
release succeeding, exactly the two error outcomes — a stall
(LIBUSB_TRANSFER_STALL) and the low-level I/O error (LIBUSB_ERROR_IO),
each matched on errno and message — make `sendDetachRequest` resolve,
and every other outcome, including a normally completed transfer, is
the hard DetachFailed rejection; on darwin every such outcome
resolves. -/
theorem C5_detach_success_signals (platform : String) (err : Option UsbTransferError)
    (hplat : platform ≠ "darwin") :
    (sendDetachRequestOutcome platform err none = DetachOutcome.resolved ↔
      ∃ e, err = some e ∧
        ((e.errno = LIBUSB_TRANSFER_STALL ∧ e.message = "LIBUSB_TRANSFER_STALL") ∨
         (e.errno = LIBUSB_ERROR_IO ∧ e.message = "LIBUSB_ERROR_IO"))) ∧
    (sendDetachRequestOutcome platform err none = DetachOutcome.resolved ∨
      sendDetachRequestOutcome platform err none = DetachOutcome.rejectedDetachFailed) ∧
    sendDetachRequestOutcome "darwin" err none = DetachOutcome.resolved := by
  have hp : (platform == "darwin") = false := beq_eq_false_iff_ne.mpr hplat
  refine ⟨?_, ?_, ?_⟩
  · cases err with
    | none => simp [sendDetachRequestOutcome, hp]
    | some e =>
      simp only [sendDetachRequestOutcome, hp, Bool.false_eq_true, if_false]
      constructor
      · intro h
        by_cases h1 : (e.errno == LIBUSB_TRANSFER_STALL &&
            e.message == "LIBUSB_TRANSFER_STALL") = true
        · exact ⟨e, rfl, Or.inl (by simpa using h1)⟩
        · by_cases h2 : (e.errno == LIBUSB_ERROR_IO && e.message == "LIBUSB_ERROR_IO") = true
          · exact ⟨e, rfl, Or.inr (by simpa using h2)⟩
          · rw [if_neg (by simp_all), if_neg (by simp_all)] at h
            exact absurd h (by simp)
      · rintro ⟨e', he', hcase⟩
        cases he'
        rcases hcase with ⟨h1, h2⟩ | ⟨h1, h2⟩ <;> simp [h1, h2]
  · cases err with
    | none => simp [sendDetachRequestOutcome, hp]
    | some e =>
      simp only [sendDetachRequestOutcome, hp, Bool.false_eq_true, if_false]
      split_ifs <;> simp
  · cases err with
    | none => simp [sendDetachRequestOutcome]
    | some e =>
      simp only [sendDetachRequestOutcome]
      split <;> try rfl
      split <;> rfl

/-- C5 witness: on linux a normally completed transfer rejects. -/
theorem C5_witness :
    ("linux" : String) ≠ "darwin" ∧
    (sendDetachRequestOutcome "linux" none none = DetachOutcome.resolved ∨
      sendDetachRequestOutcome "linux" none none = DetachOutcome.rejectedDetachFailed) :=
  ⟨by decide, (C5_detach_success_signals "linux" none (by decide)).2.1⟩

/-- C8, counterexample: with two firmware entries and no choice hook,
`choiceHelper` auto-picks `choices.pop()`, the LAST entry, not the
first one the claim names. -/
theorem C8_counterexample :
    choiceHelper ["pca10056", "pca10059"] none = Except.ok (some "pca10059") ∧
    (some "pca10059" : Option String) ≠ some "pca10056" :=
  ⟨rfl, by decide⟩

/-- C8 (amended): when the caller supplies no chooseOne hook, a single
DFU firmware entry is auto-selected without prompting, and with several
entries the LAST option is auto-picked (`choices.pop()`); the choice
hook is consulted exactly when more than one entry exists and the hook
is present. -/
theorem C8_choiceHelper_autopick (choices : List String)
    (hook : Option (Except String String)) :
    (hook = none → choiceHelper choices hook = Except.ok choices.getLast?) ∧
    (∀ x, choices = [x] → choiceHelper choices hook = Except.ok (some x)) ∧
    (∀ h, hook = some h → choices.length > 1 →
      choiceHelper choices hook = h.map some) := by
  refine ⟨?_, ?_, ?_⟩
  · intro hn
    subst hn
    simp [choiceHelper]
  · intro x hx
    subst hx
    cases hook with
    | none => rfl
    | some h => simp [choiceHelper]
  · intro h hh hlen
    subst hh
    cases h with
    | ok c => simp [choiceHelper, hlen, Except.map]
    | error e => simp [choiceHelper, hlen, Except.map]

/-- C8 witness: a single entry is auto-selected even with a hook
present. -/
theorem C8_witness :
    choiceHelper ["pca10059"] (some (Except.ok "other")) = Except.ok (some "pca10059") :=
  (C8_choiceHelper_autopick ["pca10059"] (some (Except.ok "other"))).2.1 "pca10059" rfl

/-- A non-zero accumulated start address is never overwritten. -/
theorem foldl_startStep_of_ne_zero (bs : List MemBlock) :
    ∀ s : Nat, s ≠ 0 → bs.foldl startStep (some s) = some s := by
  induction bs with
  | nil => intro s _; rfl
  | cons b bs ih =>
    intro s hs
    simp only [List.foldl_cons, startStep, hs, if_neg hs]
    exact ih s hs

/-- Folding from an accumulated 0 yields the first non-zero address,
or 0 when every remaining address is 0. -/
theorem foldl_startStep_zero (bs : List MemBlock) :
    bs.foldl startStep (some 0) =
      (match bs.find? (fun b => b.1 != 0) with
       | some b => some b.1
       | none => some 0) := by
  induction bs with
  | nil => rfl
  | cons b bs ih =>
    by_cases hb : b.1 = 0
    · simp only [List.foldl_cons, startStep, if_pos rfl, List.find?]
      rw [show (b.1 != 0) = false by simp [hb], hb]
      exact ih
    · simp only [List.foldl_cons, startStep, if_pos rfl, List.find?]
      rw [show (b.1 != 0) = true by simp [hb]]
      exact foldl_startStep_of_ne_zero bs b.1 hb

/-- The fold of `parseFirmwareImage` computes exactly the start address
the amended claim describes: the first non-zero block address, falling
back to the head address when all addresses are zero. -/
theorem computeStartAddress_eq_spec (blocks : List MemBlock) :
    computeStartAddress blocks = specStartAddress blocks := by
  cases blocks with
  | nil => rfl
  | cons b bs =>
    by_cases hb : b.1 = 0
    · show List.foldl startStep (startStep none b) bs = _
      simp only [startStep, specStartAddress, List.find?]
      rw [show (b.1 != 0) = false by simp [hb], hb, foldl_startStep_zero]
      cases hfind : bs.find? (fun c => c.1 != 0) with
      | some c => simp
      | none => simp [hb]
    · show List.foldl startStep (startStep none b) bs = _
      simp only [startStep, specStartAddress, List.find?]
      rw [show (b.1 != 0) = true by simp [hb]]
      exact foldl_startStep_of_ne_zero bs b.1 hb

/-- A non-empty block list always yields a start address. -/
theorem computeStartAddress_isSome (blocks : List MemBlock) (hne : blocks ≠ []) :
    ∃ s, computeStartAddress blocks = some s := by
  rw [computeStartAddress_eq_spec]
  unfold specStartAddress
  cases hfind : blocks.find? (fun b => b.1 != 0) with
  | some b => exact ⟨b.1, rfl⟩
  | none =>
    cases blocks with
    | nil => exact absurd rfl hne
    | cons b bs => exact ⟨b.1, rfl⟩

/-- Folding `endStep` from a present accumulator stays present. -/
theorem foldl_endStep_some (bs : List MemBlock) :
    ∀ a : Nat, ∃ e, bs.foldl endStep (some a) = some e := by
  induction bs with
  | nil => intro a; exact ⟨a, rfl⟩
  | cons b bs ih => intro a; exact ih (b.1 + b.2.length)

/-- A non-empty block list always yields an end address. -/
theorem computeEndAddress_isSome (blocks : List MemBlock) (hne : blocks ≠ []) :
    ∃ e, computeEndAddress blocks = some e := by
  cases blocks with
  | nil => exact absurd rfl hne
  | cons b bs => exact foldl_endStep_some bs (b.1 + b.2.length)

/-- The concrete memory map refuting C10: two blocks, the first one at
address 0. -/
def C10blocks : List MemBlock := [(0, [1, 2, 3, 4]), (8, [5, 6, 7, 8])]

/-- C10, counterexample: on a map whose first block starts at address 0
(blocks at 0 and 8, last end address 12), `parseFirmwareImage` yields a
4-byte image, not the 12-byte padded span from the first block's start
address that the claim describes — the `!startAddress` falsy test
re-assigns a 0 start address, dropping the first block. -/
theorem C10_counterexample :
    (parseFirmwareImage C10blocks).length = 4 ∧
    ((12 - 0 + 3) / 4 * 4 : Nat) = 12 ∧ (4 : Nat) ≠ 12 := by
  decide

/-- C10 (amended): for every non-empty memory map, the image produced
by `parseFirmwareImage` has a byte length that is a multiple of 4 —
the span up to the last block's end address is padded to the next
4-byte boundary — but the span starts at the first block address that
is non-zero (falling back to 0 only when no block has a non-zero
address), not necessarily at the first block's start address. -/
theorem C10_parseFirmwareImage_padded (blocks : List MemBlock) (hne : blocks ≠ []) :
    (parseFirmwareImage blocks).length % 4 = 0 ∧
    computeStartAddress blocks = specStartAddress blocks := by
  refine ⟨?_, computeStartAddress_eq_spec blocks⟩
  obtain ⟨s, hs⟩ := computeStartAddress_isSome blocks hne
  obtain ⟨e, he⟩ := computeEndAddress_isSome blocks hne
  unfold parseFirmwareImage
  rw [hs, he]
  simp only [slicePad, List.length_map, List.length_range]
  exact Nat.mul_mod_left _ 4

/-- C10 witness: a one-block map at a non-zero address. -/
theorem C10_witness :
    (parseFirmwareImage [((0x1000 : Nat), [1, 2, 3])]).length % 4 = 0 :=
  (C10_parseFirmwareImage_padded [((0x1000 : Nat), [1, 2, 3])] (by decide)).1

/-- C9 (confirmed): every (init packet, firmware image) pair handed to
the DFU operation by `prepareInDFUBootloader` carries hashType SHA256,
a hash equal to the SHA-256 digest of its image with the byte order
reversed, and either the SOFTDEVICE type with sdSize equal to the image
length and the spec's sdReq list, or the APPLICATION type with appSize
equal to the image length and the spec's sdId list. -/
theorem C9_initPacket_encodes (dfu : DfuEntry) (sha256 : List Nat → List Nat)
    (p : InitPacket) (img : List Nat)
    (hmem : (p, img) ∈ prepareInDFUBootloaderUpdates dfu sha256) :
    p.hashType = some HashType.SHA256 ∧
    p.hash = (sha256 img).reverse ∧
    ((p.fwType = some FwType.SOFTDEVICE ∧ p.sdSize = some img.length ∧
        p.sdReq = some ((dfu.params.getD {}).sdReq.getD [])) ∨
     (p.fwType = some FwType.APPLICATION ∧ p.appSize = some img.length ∧
        p.sdReq = some ((dfu.params.getD {}).sdId.getD []))) := by
  unfold prepareInDFUBootloaderUpdates at hmem
  cases hsd : dfu.softdevice with
  | none =>
    rw [hsd] at hmem
    simp only [List.nil_append, List.mem_singleton, Prod.mk.injEq] at hmem
    obtain ⟨hp, himg⟩ := hmem
    subst hp; subst himg
    exact ⟨rfl, rfl, Or.inr ⟨rfl, rfl, rfl⟩⟩
  | some sd =>
    rw [hsd] at hmem
    simp only [List.cons_append, List.nil_append, List.mem_cons,
      List.not_mem_nil, or_false, Prod.mk.injEq] at hmem
    rcases hmem with ⟨hp, himg⟩ | ⟨hp, himg⟩
    · subst hp; subst himg
      exact ⟨rfl, rfl, Or.inl ⟨rfl, rfl, rfl⟩⟩
    · subst hp; subst himg
      exact ⟨rfl, rfl, Or.inr ⟨rfl, rfl, rfl⟩⟩

/-- A concrete stand-in for the external SHA-256 digest. -/
def c9sha (image : List Nat) : List Nat := image.map (fun b => 255 - b)

/-- A concrete DFU firmware definition with a softdevice image. -/
def c9dfu : DfuEntry :=
  { application := [(0x1000, [1, 2, 3, 4])]
    softdevice := some [(0, [9, 9, 9, 9])]
    semver := "fw 1.0.0" }

/-- The softdevice image of `c9dfu` after parsing. -/
def c9image : List Nat := parseFirmwareImage [((0 : Nat), [9, 9, 9, 9])]

/-- The softdevice init packet built for `c9image`. -/
def c9packet : InitPacket := softdevicePacket c9sha {} c9image

/-- C9 witness: the softdevice pair of `c9dfu` carries the reversed
digest and the SHA256 hash type. -/
theorem C9_witness :
    (c9packet, c9image) ∈ prepareInDFUBootloaderUpdates c9dfu c9sha ∧
    c9packet.hashType = some HashType.SHA256 ∧
    c9packet.hash = (c9sha c9image).reverse := by
  have hmem : (c9packet, c9image) ∈ prepareInDFUBootloaderUpdates c9dfu c9sha := by decide
  exact ⟨hmem, (C9_initPacket_encodes c9dfu c9sha c9packet c9image hmem).1,
    (C9_initPacket_encodes c9dfu c9sha c9packet c9image hmem).2.1⟩

/-- Unfolding a successful `conflationMatch`: the map holds the device
under the requested serial number and the device has every expected
trait. -/
theorem conflationMatch_some {serialNumber : String} {expectedTraits : List String}
    {deviceMap : List (String × Device)} {d : Device}
    (hcm : conflationMatch serialNumber expectedTraits deviceMap = some d) :
    mapGet deviceMap serialNumber = some d ∧
      ∀ trait ∈ expectedTraits, d.traits.contains trait = true := by
  unfold conflationMatch at hcm
  cases hmg : mapGet deviceMap serialNumber with
  | none => rw [hmg] at hcm; cases hcm
  | some dev =>
    rw [hmg] at hcm
    dsimp only at hcm
    by_cases hall : expectedTraits.all (fun trait => dev.traits.contains trait) = true
    · rw [if_pos hall] at hcm
      injection hcm with hdev
      subst hdev
      exact ⟨rfl, List.all_eq_true.mp hall⟩
    · rw [if_neg hall] at hcm
      cases hcm

/-- C6 (confirmed): `waitForDevice` resolves only at an event strictly
inside the timeout window, and only to a device filed under the
requested serial number whose trait set includes every expected trait;
when no event in the window matches, it settles — it never hangs — by
rejecting exactly when the timeout timer fires. -/
theorem C6_waitForDevice (serialNumber : String) (timeout : Nat)
    (expectedTraits : List String) (events : List ConflationEvent)
    (hwf : ∀ ev ∈ events, ∀ d, mapGet ev.deviceMap serialNumber = some d →
      d.serialNumber = serialNumber) :
    (∀ t d, waitForDevice serialNumber timeout expectedTraits events = .found t d →
      d.serialNumber = serialNumber ∧
      (∀ trait ∈ expectedTraits, d.traits.contains trait = true) ∧ t < timeout) ∧
    ((∀ ev ∈ events, ev.time < timeout →
        conflationMatch serialNumber expectedTraits ev.deviceMap = none) →
      waitForDevice serialNumber timeout expectedTraits events = .timedOut timeout) := by
  constructor
  · intro t d h
    unfold waitForDevice at h
    cases hfind : events.find?
        (fun ev => decide (ev.time < timeout) &&
          (conflationMatch serialNumber expectedTraits ev.deviceMap).isSome) with
    | none => rw [hfind] at h; cases h
    | some ev =>
      rw [hfind] at h
      dsimp only at h
      have hpred := List.find?_some hfind
      have hev : ev ∈ events := List.mem_of_find?_eq_some hfind
      rw [Bool.and_eq_true, decide_eq_true_eq] at hpred
      cases hcm : conflationMatch serialNumber expectedTraits ev.deviceMap with
      | none => rw [hcm] at h; cases h
      | some device =>
        rw [hcm] at h
        cases h
        obtain ⟨hmg, htraits⟩ := conflationMatch_some hcm
        exact ⟨hwf ev hev d hmg, htraits, hpred.1⟩
  · intro hnone
    unfold waitForDevice
    rw [List.find?_eq_none.mpr]
    intro ev hev
    rw [Bool.and_eq_true, decide_eq_true_eq]
    rintro ⟨hlt, hsome⟩
    rw [hnone ev hev hlt] at hsome
    cases hsome

/-- C6 witness: with no matching event in the window, the waiter
rejects exactly when the timeout fires. -/
theorem C6_witness :
    waitForDevice "SEGGER123" 5000 ["serialport"] [] = WaitResult.timedOut 5000 :=
  (C6_waitForDevice "SEGGER123" 5000 ["serialport"] [] (by intro ev hev; cases hev)).2
    (by intro ev hev; cases hev)

/-- C1 (confirmed): for a device that is not in the DFU bootloader but
exposes a DFU trigger interface, with a non-empty dfu spec: when the
reported semantic version equals the semver of some entry and the
serial-port requirement is satisfied, `setupDevice` resolves with the
input snapshot unprogrammed after only the version probe (no
programming action); when the reported version matches no entry, the
result is that of the DFU flow, which is entered right after the
version probe. -/
theorem C1_appmode_ready_or_dfu (d : Device) (o : Options) (env : Env)
    (u : UsbDevice) (entries : List (String × DfuEntry)) (semver : String)
    (hdfu : o.dfu = some entries) (hne : entries ≠ [])
    (hboot : isDeviceInDFUBootloader (some d) = false)
    (husb : d.usb = some u)
    (hiface : getDFUInterfaceNumber u ≥ 0)
    (hsem : env.getSemVersion (getDFUInterfaceNumber u) = .ok semver) :
    ((entries.map (fun p => p.2.semver)).contains semver = true →
      (o.needSerialport = false ∨ d.serialport.isSome = true) →
      setupDevice d o env =
        (.ok (createReturnValue d false o.detailedOutput), [Action.getSemVersion])) ∧
    ((entries.map (fun p => p.2.semver)).contains semver = false →
      setupDevice d o env =
        ((performDFU d o env).1, Action.getSemVersion :: (performDFU d o env).2)) := by
  have hdef : dfuDefined o.dfu = true := by
    rw [hdfu]
    simp only [dfuDefined, Bool.not_eq_true']
    exact List.isEmpty_eq_false.mpr hne
  constructor
  · intro hcontains hserial
    have hcond : (o.needSerialport && d.serialport.isNone) = false := by
      rcases hserial with h | h
      · simp [h]
      · obtain ⟨v, hv⟩ := Option.isSome_iff_exists.mp h
        simp [hv]
    unfold setupDevice
    rw [hdef, if_pos rfl, hboot]
    simp only [Bool.false_eq_true, if_false]
    rw [husb]
    dsimp only
    rw [if_pos hiface, hsem]
    dsimp only
    rw [hdfu]
    dsimp only [Option.getD]
    rw [hcontains, if_pos rfl, hcond]
    simp
  · intro hcontains
    unfold setupDevice
    rw [hdef, if_pos rfl, hboot]
    simp only [Bool.false_eq_true, if_false]
    rw [husb]
    dsimp only
    rw [if_pos hiface, hsem]
    dsimp only
    rw [hdfu]
    dsimp only [Option.getD]
    rw [hcontains]
    simp only [Bool.false_eq_true, if_false]

/-- The DFU trigger interface descriptor used by the witnesses. -/
def triggerIface : UsbIface :=
  { bInterfaceClass := 255, bInterfaceSubClass := 1, bInterfaceProtocol := 1 }

/-- An open usb handle of a device in application mode: not the
bootloader identity, trigger interface at index 0. -/
def appUsb : UsbDevice :=
  { deviceDescriptor := { idVendor := 0x1915, idProduct := 0x520f }
    interfacesIfOpen := [triggerIface]
    isOpen := true
    openFails := false }

/-- The concrete application-mode device used by the witnesses, with a
serial port present. -/
def appDevice : Device :=
  { serialNumber := "C1A2B3"
    usb := some appUsb
    serialport := some { vendorId := "1915", productId := "520F", comName := "COM1" }
    traits := ["nordicUsb", "serialport"] }

/-- A single-entry dfu spec expecting semver "rssi 1.0.0". -/
def c1entries : List (String × DfuEntry) :=
  [("pca10059", { application := [(0x1000, [1, 2, 3, 4])], semver := "rssi 1.0.0" })]

/-- Options carrying the dfu spec of `c1entries`. -/
def c1options : Options := { dfu := some c1entries }

/-- An environment whose version probe reports "rssi 1.0.0". -/
def c1env : Env :=
  { getSemVersion := fun _ => .ok "rssi 1.0.0"
    ensureBootloader := fun dev => .ok dev
    getBootloaderVersion := fun _ => .ok 3
    updateBootloader := fun dev => .ok dev
    dfuTransfer := fun dev _ => .ok dev
    serialPortOk := fun _ => true
    verifySerial := .ok ()
    openJLink := .ok ()
    getDeviceFamily := .ok "nrf52"
    validateFirmware := fun _ => .ok true
    programFirmware := fun _ => .ok ()
    closeJLink := .ok () }

/-- C1 witness: the matching version resolves unprogrammed after the
version probe alone. -/
theorem C1_witness :
    setupDevice appDevice c1options c1env =
      (.ok (createReturnValue appDevice false false), [Action.getSemVersion]) :=
  (C1_appmode_ready_or_dfu appDevice c1options c1env appUsb c1entries "rssi 1.0.0"
    rfl (by decide) rfl rfl (by decide) rfl).1 (by decide) (Or.inr rfl)

/-- C7 (confirmed): in application mode with a matching reported
version, a required but absent serial port makes `setupDevice` reject
with Missing serial port instead of resolving. -/
theorem C7_missing_serial_port (d : Device) (o : Options) (env : Env)
    (u : UsbDevice) (entries : List (String × DfuEntry)) (semver : String)
    (hdfu : o.dfu = some entries) (hne : entries ≠ [])
    (hboot : isDeviceInDFUBootloader (some d) = false)
    (husb : d.usb = some u)
    (hiface : getDFUInterfaceNumber u ≥ 0)
    (hsem : env.getSemVersion (getDFUInterfaceNumber u) = .ok semver)
    (hcontains : (entries.map (fun p => p.2.semver)).contains semver = true)
    (hneed : o.needSerialport = true)
    (hport : d.serialport = none) :
    setupDevice d o env = (.error "Missing serial port", [Action.getSemVersion]) := by
  have hdef : dfuDefined o.dfu = true := by
    rw [hdfu]
    simp only [dfuDefined, Bool.not_eq_true']
    exact List.isEmpty_eq_false.mpr hne
  unfold setupDevice
  rw [hdef, if_pos rfl, hboot]
  simp only [Bool.false_eq_true, if_false]
  rw [husb]
  dsimp only
  rw [if_pos hiface, hsem]
  dsimp only
  rw [hdfu]
  dsimp only [Option.getD]
  rw [hcontains, if_pos rfl, hneed, hport]
  simp

/-- The device of the C7 witness: trigger interface but no serial
port. -/
def c7device : Device :=
  { serialNumber := "C7SER"
    usb := some appUsb
    serialport := none
    traits := ["nordicUsb"] }

/-- Options requiring a serial port over the `c1entries` spec. -/
def c7options : Options := { dfu := some c1entries, needSerialport := true }

/-- C7 witness: matching version but missing required serial port. -/
theorem C7_witness :
    setupDevice c7device c7options c1env =
      (.error "Missing serial port", [Action.getSemVersion]) :=
  C7_missing_serial_port c7device c7options c1env appUsb c1entries "rssi 1.0.0"
    rfl (by decide) rfl rfl (by decide) rfl (by decide) rfl rfl

/-- C2 (confirmed): a device that is neither the bootloader identity
nor exposes a DFU trigger interface, when no JLink spec applies (no
jprog option or no jlink trait), makes `setupDevice` resolve with the
unmodified snapshot, unprogrammed, with an empty action trace: no
detach, no DFU transfer, no flashing. -/
theorem C2_impossible_passthrough (d : Device) (o : Options) (env : Env)
    (hboot : isDeviceInDFUBootloader (some d) = false)
    (htrig : ∀ u, d.usb = some u → ¬getDFUInterfaceNumber u ≥ 0)
    (hjl : o.jprog = none ∨ d.traits.contains "jlink" = false) :
    setupDevice d o env =
      (.ok (createReturnValue d false o.detailedOutput), []) := by
  have hdefault : setupJlinkOrDefault d o env =
      (.ok (createReturnValue d false o.detailedOutput), []) := by
    unfold setupJlinkOrDefault
    rcases hjl with h | h
    · rw [h]
    · cases hj : o.jprog with
      | none => rfl
      | some jm => rw [h]; simp
  unfold setupDevice
  cases hdef : dfuDefined o.dfu with
  | false => simp only [Bool.false_eq_true, if_false]; exact hdefault
  | true =>
    simp only [if_pos rfl]
    rw [hboot]
    simp only [Bool.false_eq_true, if_false]
    cases husb : d.usb with
    | none => exact hdefault
    | some u =>
      dsimp only
      rw [if_neg (htrig u husb)]
      exact hdefault

/-- A plain serial device: no usb handle, no jlink trait. -/
def c2device : Device :=
  { serialNumber := "C2PLAIN"
    usb := none
    serialport := some { vendorId := "1366", productId := "1015", comName := "COM9" }
    traits := ["serialport"] }

/-- C2 witness: with a dfu spec supplied but no jprog spec, the plain
device passes through unmodified with an empty trace. -/
theorem C2_witness :
    setupDevice c2device c1options c1env =
      (.ok (createReturnValue c2device false false), []) :=
  C2_impossible_passthrough c2device c1options c1env rfl
    (fun u hu => absurd hu (by simp [c2device])) (Or.inl rfl)

/-- The bootloader-update sub-flow never opens the JLink probe. -/
theorem checkConfirmUpdateBootloader_no_openJLink (device : Device)
    (hook : Option (Except String Bool)) (env : Env) :
    Action.openJLink ∉ (checkConfirmUpdateBootloader device hook env).2 := by
  intro ha
  unfold checkConfirmUpdateBootloader at ha
  repeat' split at ha
  all_goals simp at ha

/-- The DFU flow never opens the JLink probe. -/
theorem performDFU_no_openJLink (d : Device) (o : Options) (env : Env) :
    Action.openJLink ∉ (performDFU d o env).2 := by
  intro ha
  unfold performDFU at ha
  repeat' split at ha
  all_goals simp at ha
  all_goals exact checkConfirmUpdateBootloader_no_openJLink _ _ _ ha

/-- The last element of a trace extended by one closing action. -/
theorem getLast?_append_singleton (l : List Action) (a : Action) :
    (l ++ [a]).getLast? = some a :=
  List.getLast?_concat l

/-- The JLink branch always ends by closing the probe: its trace ends
with the closeJLink action, whatever the environment settles. -/
theorem jlinkFlow_trace_last (d : Device) (o : Options)
    (jm : List (String × JprogEntry)) (env : Env) :
    (jlinkFlow d o jm env).2.getLast? = some Action.closeJLink := by
  unfold jlinkFlow
  split <;> (split <;> exact getLast?_append_singleton _ _)

/-- The tail dispatch either never opens the probe or ends by closing
it. -/
theorem setupJlinkOrDefault_open_or_last (d : Device) (o : Options) (env : Env) :
    Action.openJLink ∉ (setupJlinkOrDefault d o env).2 ∨
    (setupJlinkOrDefault d o env).2.getLast? = some Action.closeJLink := by
  unfold setupJlinkOrDefault
  split
  · split
    · exact Or.inr (jlinkFlow_trace_last _ _ _ _)
    · exact Or.inl (by simp)
  · exact Or.inl (by simp)

/-- Every run of `setupDevice` either never opens the probe or ends by
closing it. -/
theorem setupDevice_open_or_last (d : Device) (o : Options) (env : Env) :
    Action.openJLink ∉ (setupDevice d o env).2 ∨
    (setupDevice d o env).2.getLast? = some Action.closeJLink := by
  unfold setupDevice
  split
  · split
    · exact Or.inl (performDFU_no_openJLink d o env)
    · split
      · split
        · split
          · exact Or.inl (by simp)
          · split
            · split
              · exact Or.inl (by simp)
              · exact Or.inl (by simp)
            · refine Or.inl ?_
              intro hmem
              rcases List.mem_cons.mp hmem with h | h
              · cases h
              · exact performDFU_no_openJLink d o env h
        · exact setupJlinkOrDefault_open_or_last d o env
      · exact setupJlinkOrDefault_open_or_last d o env
  · exact setupJlinkOrDefault_open_or_last d o env

/-- C4 (confirmed): whenever a `setupDevice` run opens the JLink probe,
its external-action trace ends with the closeJLink call — the probe is
closed before the returned promise settles on every exit path: success,
validation short-circuit, flashing failure, family-lookup failure, and
user cancellation alike. -/
theorem C4_probe_always_closed (d : Device) (o : Options) (env : Env)
    (hopen : Action.openJLink ∈ (setupDevice d o env).2) :
    (setupDevice d o env).2.getLast? = some Action.closeJLink := by
  rcases setupDevice_open_or_last d o env with h | h
  · exact absurd hopen h
  · exact h

/-- The device of the JLink witnesses. -/
def jlinkDevice : Device :=
  { serialNumber := "000680000000"
    usb := none
    serialport := some { vendorId := "1366", productId := "1015", comName := "COM5" }
    traits := ["jlink", "serialport"] }

/-- A jprog spec with an nrf52 entry. -/
def jprogEntries : List (String × JprogEntry) :=
  [("nrf52", { fw := "fw/rssi-10040.hex", fwIdAddress := 0x2000 })]

/-- Options carrying only the jprog spec. -/
def c4options : Options := { jprog := some jprogEntries }

/-- C4 witness: a run that opens the probe (family lookup fails here)
still ends by closing it. -/
theorem C4_witness :
    Action.openJLink ∈ (setupDevice jlinkDevice c4options c1env).2 ∧
    (setupDevice jlinkDevice c4options c1env).2.getLast? = some Action.closeJLink :=
  ⟨by decide, C4_probe_always_closed jlinkDevice c4options c1env (by decide)⟩

/-- A declined confirmation makes `performDFU` return the input
snapshot unprogrammed right away. -/
theorem performDFU_confirmFalse (d : Device) (o : Options) (env : Env)
    (hc : o.promiseConfirm = some (Except.ok false)) :
    performDFU d o env =
      (.ok (createReturnValue d false o.detailedOutput), [Action.confirm]) := by
  unfold performDFU confirmHelper
  rw [hc]

/-- With a declined confirmation the JLink phase never resolves with a
programmed flag, never flashes, and never performs a DFU transfer. -/
theorem jlinkFlowPhase_confirmFalse (o : Options) (jm : List (String × JprogEntry))
    (env : Env) (hc : o.promiseConfirm = some (Except.ok false)) :
    (jlinkFlowPhase o jm env).1 ≠ Except.ok true ∧
    Action.programFirmware ∉ (jlinkFlowPhase o jm env).2 ∧
    ∀ c, Action.dfuTransfer c ∉ (jlinkFlowPhase o jm env).2 := by
  have hch : confirmHelper o.promiseConfirm = Except.ok false := by
    rw [hc]; rfl
  unfold jlinkFlowPhase
  rw [hch]
  repeat' split
  all_goals simp_all

/-- With a declined confirmation the JLink branch resolves (when it
resolves) with the unprogrammed original snapshot, and neither flashes
nor performs a DFU transfer. -/
theorem jlinkFlow_confirmFalse (d : Device) (o : Options)
    (jm : List (String × JprogEntry)) (env : Env)
    (hc : o.promiseConfirm = some (Except.ok false)) :
    (∀ rv, (jlinkFlow d o jm env).1 = .ok rv →
      rv = createReturnValue d false o.detailedOutput) ∧
    Action.programFirmware ∉ (jlinkFlow d o jm env).2 ∧
    ∀ c, Action.dfuTransfer c ∉ (jlinkFlow d o jm env).2 := by
  obtain ⟨h1, h2, h3⟩ := jlinkFlowPhase_confirmFalse o jm env hc
  unfold jlinkFlow
  split
  · rename_i wasProgrammed tr heq
    have hwp : wasProgrammed = false := by
      rw [heq] at h1
      cases wasProgrammed with
      | false => rfl
      | true => exact absurd rfl h1
    have htr2 : Action.programFirmware ∉ tr := by
      rw [heq] at h2; exact h2
    have htr3 : ∀ c, Action.dfuTransfer c ∉ tr := by
      intro c; rw [heq] at h3; exact h3 c
    subst hwp
    split
    · refine ⟨?_, ?_, ?_⟩
      · intro rv hrv
        injection hrv with h
        exact h.symm
      · intro hmem
        rcases List.mem_append.mp hmem with h | h
        · exact htr2 h
        · simp at h
      · intro c hmem
        rcases List.mem_append.mp hmem with h | h
        · exact htr3 c h
        · simp at h
    · refine ⟨?_, ?_, ?_⟩
      · intro rv hrv; cases hrv
      · intro hmem
        rcases List.mem_append.mp hmem with h | h
        · exact htr2 h
        · simp at h
      · intro c hmem
        rcases List.mem_append.mp hmem with h | h
        · exact htr3 c h
        · simp at h
  · rename_i e tr heq
    have htr2 : Action.programFirmware ∉ tr := by
      rw [heq] at h2; exact h2
    have htr3 : ∀ c, Action.dfuTransfer c ∉ tr := by
      intro c; rw [heq] at h3; exact h3 c
    split
    · refine ⟨?_, ?_, ?_⟩
      · intro rv hrv; cases hrv
      · intro hmem
        rcases List.mem_append.mp hmem with h | h
        · exact htr2 h
        · simp at h
      · intro c hmem
        rcases List.mem_append.mp hmem with h | h
        · exact htr3 c h
        · simp at h
    · refine ⟨?_, ?_, ?_⟩
      · intro rv hrv; cases hrv
      · intro hmem
        rcases List.mem_append.mp hmem with h | h
        · exact htr2 h
        · simp at h
      · intro c hmem
        rcases List.mem_append.mp hmem with h | h
        · exact htr3 c h
        · simp at h

/-- With a declined confirmation the tail dispatch resolves (when it
resolves) with the unprogrammed original snapshot and performs no
programming. -/
theorem setupJlinkOrDefault_confirmFalse (d : Device) (o : Options) (env : Env)
    (hc : o.promiseConfirm = some (Except.ok false)) :
    (∀ rv, (setupJlinkOrDefault d o env).1 = .ok rv →
      rv = createReturnValue d false o.detailedOutput) ∧
    Action.programFirmware ∉ (setupJlinkOrDefault d o env).2 ∧
    ∀ c, Action.dfuTransfer c ∉ (setupJlinkOrDefault d o env).2 := by
  unfold setupJlinkOrDefault
  split
  · split
    · exact jlinkFlow_confirmFalse d o _ env hc
    · exact ⟨fun rv hrv => by injection hrv with h; exact h.symm, by simp, by simp⟩
  · exact ⟨fun rv hrv => by injection hrv with h; exact h.symm, by simp, by simp⟩

/-- C3, counterexample fixtures: a device already in the DFU bootloader
(usb identity 0x1915/0x521f). -/
def c3device : Device :=
  { serialNumber := "C3BOOT"
    usb := some
      { deviceDescriptor := { idVendor := 0x1915, idProduct := 0x521f }
        interfacesIfOpen := []
        isOpen := true
        openFails := false }
    serialport := some { vendorId := "1915", productId := "521F", comName := "COM3" }
    traits := ["nordicDfu", "serialport"] }

/-- Options with the confirmation hook present and resolving false. -/
def c3options : Options :=
  { dfu := some c1entries
    detailedOutput := true
    promiseConfirm := some (Except.ok false) }

/-- C3, counterexample: with the confirmation hook resolving false at
the DFU programming gate, `setupDevice` RESOLVES with the original
snapshot and wasProgrammed=false — it does not reject with the
SetupCancelled error ("Preparation cancelled by user") the claim
requires; that error arises only when the hook rejects. -/
theorem C3_counterexample :
    setupDevice c3device c3options c1env =
      (.ok (ReturnValue.detailed c3device false), [Action.confirm]) ∧
    (setupDevice c3device c3options c1env).1 ≠
      Except.error "Preparation cancelled by user" := by
  refine ⟨rfl, ?_⟩
  intro h
  have h2 : (Except.ok (ReturnValue.detailed c3device false) : Except String ReturnValue) =
      Except.error "Preparation cancelled by user" := h
  exact Except.noConfusion h2

/-- C3 (amended): whenever the caller-supplied confirmation hook is
present and resolves to false, no DFU transfer and no flashing is
performed, and if the operation resolves it resolves with the original
snapshot and wasProgrammed=false — the decline is not an error;
SetupCancelled ("Preparation cancelled by user") is produced only when
the hook rejects. -/
theorem C3_confirm_false_no_programming (d : Device) (o : Options) (env : Env)
    (hc : o.promiseConfirm = some (Except.ok false)) :
    (∀ c, Action.dfuTransfer c ∉ (setupDevice d o env).2) ∧
    Action.programFirmware ∉ (setupDevice d o env).2 ∧
    ∀ rv, (setupDevice d o env).1 = .ok rv →
      rv = createReturnValue d false o.detailedOutput := by
  have hdfu := performDFU_confirmFalse d o env hc
  have hjl := setupJlinkOrDefault_confirmFalse d o env hc
  unfold setupDevice
  split
  · split
    · rw [hdfu]
      exact ⟨by intro c; simp, by simp,
        fun rv hrv => by injection hrv with h; exact h.symm⟩
    · split
      · split
        · split
          · exact ⟨by intro c; simp, by simp, fun rv hrv => by cases hrv⟩
          · split
            · split
              · exact ⟨by intro c; simp, by simp, fun rv hrv => by cases hrv⟩
              · exact ⟨by intro c; simp, by simp,
                  fun rv hrv => by injection hrv with h; exact h.symm⟩
            · rw [hdfu]
              refine ⟨by intro c; simp, by simp, ?_⟩
              intro rv hrv
              injection hrv with h
              exact h.symm
        · exact ⟨hjl.2.2, hjl.2.1, hjl.1⟩
      · exact ⟨hjl.2.2, hjl.2.1, hjl.1⟩
  · exact ⟨hjl.2.2, hjl.2.1, hjl.1⟩

/-- C3 witness: the amended statement at the counterexample fixtures —
the resolved value is the unprogrammed original snapshot. -/
theorem C3_witness :
    ReturnValue.detailed c3device false = createReturnValue c3device false true :=
  (C3_confirm_false_no_programming c3device c3options c1env rfl).2.2
    (ReturnValue.detailed c3device false) rfl

end NrfDeviceSetup
